import Mathlib

/-!
Verification of `src/Detection/version2/main2.py`, a single-file visual
inspection script.  The script's logic layer is `process_frame`, which takes
a camera frame and the list of YOLO detections, stores per-class bounding
boxes, computes an offset percentage between the "logo" and "topTether"
boxes, thresholds it into a horizontal status, and classifies the part as
"NORMAL LOGO" / "DEFECTIVE LOGO" while drawing annotations.  `main` wraps a
camera/model/display loop in a single try/except/finally.

Shallow embedding conventions:
* A YOLO detection row `[x1, y1, x2, y2, conf, cls]` becomes a `Det` record
  holding the four `map(int, ...)` coordinates and the class-name string
  `model.names[cls]`.  The confidence is only used by the source in the
  string `label` (line 47), which the source never draws, so it carries no
  observable behaviour and is not modelled.
* OpenCV drawing calls (`cv2.line`, `cv2.rectangle`, `cv2.circle`,
  `cv2.putText`) become constructors of `Ann`, recorded in order on an
  annotation list; the pixel mutation itself is not modelled, only which
  primitives are rendered with which semantic payloads.
* Python `//` on ints is floor division, modelled with `Int.fdiv`.
* Python `/` on ints (true division, line 72) is modelled exactly over `ℚ`;
  it raises `ZeroDivisionError` when the divisor is `0`, modelled by the
  `Except` error branch.
* Python local variables that may be unbound (`x2`, `class_name` after a
  loop over an empty detection list) are modelled as `Option`s; reading an
  unbound one raises, modelled by `PFError.nameError`.
-/

set_option autoImplicit false

/-- One YOLO detection row, after `x1, y1, x2, y2 = map(int, result[:4])`
and `class_name = model.names[int(cls)]` (main2.py lines 36-41). -/
structure Det where
  x1 : Int
  y1 : Int
  x2 : Int
  y2 : Int
  cls : String
  deriving DecidableEq

/-- A rendered annotation primitive.  Each constructor corresponds to one
OpenCV drawing call in `process_frame`, with its semantic payload:
`line` is the blue middle reference line (line 33), `rect` a detection
bounding box (line 44), `coordText` the two corner-coordinate labels
(lines 48-51), `circle`/`midText` the midpoint marker (lines 55-57), and
the remaining constructors the measurement/status texts of the
both-detected branch (lines 97-112). -/
inductive Ann where
  | line (p q : Int × Int)
  | rect (p q : Int × Int)
  | coordText (pt pos : Int × Int)
  | circle (c : Int × Int)
  | midText (pt pos : Int × Int)
  | tMidText (v : Int)
  | lMidText (v : Int)
  | widthText (v : Int)
  | pctText (v : ℚ)
  | hStatusText (s : String)
  | vStatusText (s : String)
  | logoStatusText (s : String)
  deriving DecidableEq

/-- The state threaded through the `for result in results[0].boxes.data`
loop of `process_frame` (main2.py lines 35-63): the optional stored
topTether box `t`, the optional stored logo box `l`, the loop variables
`x2` and `class_name` as left behind by the last iteration (unbound when
the loop body never ran), and the annotations drawn so far. -/
structure LoopState where
  t : Option (Int × Int × Int × Int)
  l : Option (Int × Int × Int × Int)
  lastX2 : Option Int
  lastCls : Option String
  anns : List Ann
  deriving DecidableEq

/-- One iteration of the detection loop (main2.py lines 35-63): draw the
box, corner texts and midpoint marker, then store the coordinates under
the class slot if the class is `"topTether"` or `"logo"`, and leave the
loop variables `x2` and `class_name` holding this detection's values. -/
def stepDet (st : LoopState) (d : Det) : LoopState :=
  let mid_x := Int.fdiv (d.x1 + d.x2) 2
  let anns2 := st.anns ++
    [Ann.rect (d.x1, d.y1) (d.x2, d.y2),
     Ann.coordText (d.x1, d.y1) (d.x1, d.y1 - 30),
     Ann.coordText (d.x2, d.y2) (d.x2, d.y2 + 10),
     Ann.circle (mid_x, d.y1),
     Ann.midText (mid_x, d.y1) (mid_x, d.y1 - 10)]
  let t := if d.cls = "topTether" then some (d.x1, d.y1, d.x2, d.y2) else st.t
  let l := if d.cls = "logo" then some (d.x1, d.y1, d.x2, d.y2) else st.l
  { t := t, l := l, lastX2 := some d.x2, lastCls := some d.cls, anns := anns2 }

/-- The loop state before the detection loop runs: no stored boxes, loop
variables unbound, and the middle reference line already drawn
(main2.py lines 26-33).  `w` and `h` are `frame.shape[1]` and
`frame.shape[0]`. -/
def initState (w h : Int) : LoopState :=
  { t := none, l := none, lastX2 := none, lastCls := none,
    anns := [Ann.line (Int.fdiv w 2, 0) (Int.fdiv w 2, h)] }

/-- The loop state after processing all detections of a frame of width `w`
and height `h`. -/
def scanState (w h : Int) (dets : List Det) : LoopState :=
  dets.foldl stepDet (initState w h)

/-- The horizontal-status thresholding (main2.py lines 75-83). -/
def hStatus (p : ℚ) : String :=
  if p < 1 then "Left of Normal Position"
  else if p > 10 then "Right of Normal Position"
  else "Normal Position"

/-- The colour attached to the horizontal status (main2.py lines 77-83),
as the BGR triple passed to `cv2.putText`. -/
def hColor (p : ℚ) : Int × Int × Int :=
  if p < 1 then (0, 255, 255)
  else if p > 10 then (0, 0, 255)
  else (0, 255, 0)

/-- The NORMAL/DEFECTIVE decision (main2.py lines 89-94): NORMAL exactly
when the horizontal status is "Normal Position", the side status is
"Right", and the (last) class name is neither inverted class. -/
def logoDecision (h_status v_status class_name : String) : String :=
  if h_status = "Normal Position" ∧ v_status = "Right" ∧
     class_name ≠ "inverted_topTether" ∧ class_name ≠ "inverted_logo"
  then "NORMAL LOGO" else "DEFECTIVE LOGO"

/-- The quantities computed in the both-boxes-detected branch of
`process_frame` (main2.py lines 66-94): the two midpoints, the tether
width, the offset percentage, the three status strings, and the loop
variables `x2` / `class_name` the branch reads. -/
structure Measurement where
  t_mid_x : Int
  l_mid_x : Int
  width_t : Int
  percentage : ℚ
  h_status : String
  v_status : String
  last_x2 : Int
  last_cls : String
  logo_status : String
  deriving DecidableEq

/-- Python exceptions `process_frame` can raise: `ZeroDivisionError` from
`diff_x / width_t` when `width_t == 0` (line 72), and `NameError` from
reading `x2` / `class_name` when the loop never ran (unreachable when both
boxes were stored). -/
inductive PFError where
  | zeroDivision
  | nameError
  deriving DecidableEq

/-- The value of a successful `process_frame` call: the annotated frame
(as its list of drawing operations) plus the measurement when both boxes
were detected. -/
structure PFResult where
  anns : List Ann
  meas : Option Measurement
  deriving DecidableEq

/-- Shallow embedding of `process_frame` (main2.py lines 17-116) on a frame
of width `w`, height `h`, with detection list `dets` (the rows of
`results[0].boxes.data` in order).  After the detection loop, if both a
topTether and a logo box are stored it computes the midpoints, the tether
width, the offset percentage `(l_mid_x - t_mid_x) / width_t * 100`
(raising `ZeroDivisionError` when `width_t = 0`), the horizontal status,
the side status from the last loop iteration's `x2`, and the logo status
from them and the last `class_name`; it draws the measurement texts and
returns the annotated frame. -/
def process_frame (w h : Int) (dets : List Det) : Except PFError PFResult :=
  let middle_x := Int.fdiv w 2
  let st := scanState w h dets
  match st.t, st.l, st.lastX2, st.lastCls with
  | some (t_x1, _, t_x2, _), some (l_x1, _, l_x2, _), some x2, some class_name =>
    let t_mid_x := Int.fdiv (t_x1 + t_x2) 2
    let l_mid_x := Int.fdiv (l_x1 + l_x2) 2
    let width_t := t_x2 - t_x1
    if width_t = 0 then Except.error PFError.zeroDivision
    else
      let percentage : ℚ := (((l_mid_x - t_mid_x : Int) : ℚ) / ((width_t : Int) : ℚ)) * 100
      let h_status := hStatus percentage
      let v_status := if x2 > middle_x then "Right" else "Left"
      let logo_status := logoDecision h_status v_status class_name
      let anns2 := st.anns ++
        [Ann.tMidText t_mid_x, Ann.lMidText l_mid_x, Ann.widthText width_t,
         Ann.pctText percentage, Ann.hStatusText h_status,
         Ann.vStatusText v_status, Ann.logoStatusText logo_status]
      Except.ok
        { anns := anns2,
          meas := some
            { t_mid_x := t_mid_x, l_mid_x := l_mid_x, width_t := width_t,
              percentage := percentage, h_status := h_status,
              v_status := v_status, last_x2 := x2, last_cls := class_name,
              logo_status := logo_status } }
  | some _, some _, _, _ => Except.error PFError.nameError
  | _, _, _, _ => Except.ok { anns := st.anns, meas := none }

/-- The measurement field of a `process_frame` call: `none` when the call
raised, `some none` when it returned a frame without a measurement,
`some (some m)` when it measured `m`. -/
def measOf : Except PFError PFResult → Option (Option Measurement)
  | Except.ok r => some r.meas
  | Except.error _ => none

/-- The annotations of a `process_frame` call (empty when it raised). -/
def annsOf : Except PFError PFResult → List Ann
  | Except.ok r => r.anns
  | Except.error _ => []

/-- The offset percentage a `process_frame` call computed, when any. -/
def pctOf (r : Except PFError PFResult) : Option ℚ :=
  match measOf r with
  | some (some m) => some m.percentage
  | _ => none

/-- The NORMAL/DEFECTIVE classification a `process_frame` call produced,
when any. -/
def statusOf (r : Except PFError PFResult) : Option String :=
  match measOf r with
  | some (some m) => some m.logo_status
  | _ => none

/-- The last detection of class `c` in iteration order over a frame's
detection list. -/
def lastOfClass (c : String) (dets : List Det) : Option Det :=
  (dets.filter fun d => d.cls == c).getLast?

lemma foldl_stepDet_t (dets : List Det) (st : LoopState) :
    (dets.foldl stepDet st).t =
      match lastOfClass "topTether" dets with
      | some d => some (d.x1, d.y1, d.x2, d.y2)
      | none => st.t := by
  induction dets using List.reverseRecOn with
  | nil => simp [lastOfClass]
  | append_singleton l a ih =>
    by_cases hc : a.cls = "topTether" <;>
      simp [lastOfClass, List.foldl_append, stepDet, hc, List.filter_append,
        List.getLast?_append, ih, lastOfClass]

lemma foldl_stepDet_l (dets : List Det) (st : LoopState) :
    (dets.foldl stepDet st).l =
      match lastOfClass "logo" dets with
      | some d => some (d.x1, d.y1, d.x2, d.y2)
      | none => st.l := by
  induction dets using List.reverseRecOn with
  | nil => simp [lastOfClass]
  | append_singleton l a ih =>
    by_cases hc : a.cls = "logo" <;>
      simp [lastOfClass, List.foldl_append, stepDet, hc, List.filter_append,
        List.getLast?_append, ih, lastOfClass]

lemma foldl_stepDet_lastX2 (dets : List Det) (st : LoopState) :
    (dets.foldl stepDet st).lastX2 =
      match dets.getLast? with
      | some d => some d.x2
      | none => st.lastX2 := by
  induction dets using List.reverseRecOn with
  | nil => simp
  | append_singleton l a ih => simp [List.foldl_append, stepDet, List.getLast?_concat]

lemma foldl_stepDet_lastCls (dets : List Det) (st : LoopState) :
    (dets.foldl stepDet st).lastCls =
      match dets.getLast? with
      | some d => some d.cls
      | none => st.lastCls := by
  induction dets using List.reverseRecOn with
  | nil => simp
  | append_singleton l a ih => simp [List.foldl_append, stepDet, List.getLast?_concat]

lemma scanState_t (w h : Int) (dets : List Det) :
    (scanState w h dets).t =
      (lastOfClass "topTether" dets).map fun d => (d.x1, d.y1, d.x2, d.y2) := by
  rw [scanState, foldl_stepDet_t]
  cases lastOfClass "topTether" dets <;> simp [initState]

lemma scanState_l (w h : Int) (dets : List Det) :
    (scanState w h dets).l =
      (lastOfClass "logo" dets).map fun d => (d.x1, d.y1, d.x2, d.y2) := by
  rw [scanState, foldl_stepDet_l]
  cases lastOfClass "logo" dets <;> simp [initState]

lemma scanState_lastX2 (w h : Int) (dets : List Det) :
    (scanState w h dets).lastX2 = dets.getLast?.map Det.x2 := by
  rw [scanState, foldl_stepDet_lastX2]
  cases dets.getLast? <;> simp [initState]

lemma scanState_lastCls (w h : Int) (dets : List Det) :
    (scanState w h dets).lastCls = dets.getLast?.map Det.cls := by
  rw [scanState, foldl_stepDet_lastCls]
  cases dets.getLast? <;> simp [initState]

lemma mem_anns_foldl (dets : List Det) :
    ∀ (st : LoopState) (a : Ann), a ∈ st.anns → a ∈ (dets.foldl stepDet st).anns := by
  induction dets with
  | nil => exact fun _ _ ha => ha
  | cons d ds ih =>
    intro st a ha
    exact ih _ _ (List.mem_append_left _ ha)

lemma rect_mem_anns_foldl (dets : List Det) :
    ∀ (st : LoopState) (d : Det), d ∈ dets →
      Ann.rect (d.x1, d.y1) (d.x2, d.y2) ∈ (dets.foldl stepDet st).anns := by
  induction dets with
  | nil => intro _ _ hd; cases hd
  | cons e es ih =>
    intro st d hd
    rcases List.mem_cons.mp hd with rfl | hd
    · exact mem_anns_foldl es _ _ (List.mem_append_right _ (by simp))
    · exact ih _ _ hd

lemma line_mem_scanState (w h : Int) (dets : List Det) :
    Ann.line (Int.fdiv w 2, 0) (Int.fdiv w 2, h) ∈ (scanState w h dets).anns :=
  mem_anns_foldl _ _ _ (by simp [initState])

lemma process_frame_meas (w h : Int) (dets : List Det) (m : Measurement)
    (hm : measOf (process_frame w h dets) = some (some m)) :
    ∃ tb lb, (scanState w h dets).t = some tb ∧ (scanState w h dets).l = some lb ∧
      (scanState w h dets).lastX2 = some m.last_x2 ∧
      (scanState w h dets).lastCls = some m.last_cls ∧
      m.t_mid_x = Int.fdiv (tb.1 + tb.2.2.1) 2 ∧
      m.l_mid_x = Int.fdiv (lb.1 + lb.2.2.1) 2 ∧
      m.width_t = tb.2.2.1 - tb.1 ∧
      m.width_t ≠ 0 ∧
      m.percentage = (((m.l_mid_x - m.t_mid_x : Int) : ℚ) / ((m.width_t : Int) : ℚ)) * 100 ∧
      m.h_status = hStatus m.percentage ∧
      m.v_status = (if m.last_x2 > Int.fdiv w 2 then "Right" else "Left") ∧
      m.logo_status = logoDecision m.h_status m.v_status m.last_cls := by
  simp only [process_frame] at hm
  rcases ht : (scanState w h dets).t with _ | ⟨t_x1, t_y1, t_x2, t_y2⟩ <;>
    rcases hl : (scanState w h dets).l with _ | ⟨l_x1, l_y1, l_x2, l_y2⟩ <;>
    rcases hx : (scanState w h dets).lastX2 with _ | x2 <;>
    rcases hc : (scanState w h dets).lastCls with _ | cn <;>
    rw [ht, hl, hx, hc] at hm <;>
    simp only [measOf, Option.some.injEq, reduceCtorEq] at hm
  by_cases hw : t_x2 - t_x1 = 0
  · rw [if_pos hw] at hm
    simp [measOf] at hm
  · rw [if_neg hw] at hm
    simp only [measOf, Option.some.injEq] at hm
    subst hm
    exact ⟨(t_x1, t_y1, t_x2, t_y2), (l_x1, l_y1, l_x2, l_y2), rfl, rfl, rfl, rfl,
      rfl, rfl, rfl, hw, rfl, rfl, rfl, rfl⟩

lemma process_frame_noMeas (w h : Int) (dets : List Det)
    (hmiss : (scanState w h dets).t = none ∨ (scanState w h dets).l = none) :
    process_frame w h dets =
      Except.ok { anns := (scanState w h dets).anns, meas := none } := by
  simp only [process_frame]
  rcases ht : (scanState w h dets).t with _ | tb <;>
    rcases hl : (scanState w h dets).l with _ | lb <;>
    rcases hx : (scanState w h dets).lastX2 with _ | x2 <;>
    rcases hc : (scanState w h dets).lastCls with _ | cn <;>
    first
      | rfl
      | (rw [ht, hl] at hmiss; simp at hmiss)

lemma logoDecision_congr (h v c1 c2 : String)
    (hc : (c1 = "inverted_topTether" ∨ c1 = "inverted_logo") ↔
          (c2 = "inverted_topTether" ∨ c2 = "inverted_logo")) :
    logoDecision h v c1 = logoDecision h v c2 := by
  unfold logoDecision
  split_ifs with h1 h2 <;> first | rfl | (exfalso; tauto)

/-- The offset-percentage formula as the specification states it:
`(logo_mid_x − tether_mid_x) / tether_width × 100`, with `logo_mid_x` and
`tether_mid_x` the integer midpoints `(x1 + x2) // 2` of the logo and the
topTether bounding boxes and `tether_width = t_x2 − t_x1`.  This is written
from the spec's words, to be compared with the percentage the code
computes. -/
def offsetPercentageSpec (t_x1 t_x2 l_x1 l_x2 : Int) : ℚ :=
  ((Int.fdiv (l_x1 + l_x2) 2 - Int.fdiv (t_x1 + t_x2) 2 : Int) : ℚ)
    / ((t_x2 - t_x1 : Int) : ℚ) * 100

/-- Python exceptions relevant to `main` (main2.py lines 119-151):
`KeyboardInterrupt` (caught by the first handler, line 144), any other
exception carrying a message (caught by `except Exception as e`, line 146),
and the `NameError` the `finally` block raises when it reads the local name
`picam2` (line 150) although no assignment to it ever ran. -/
inductive PyExc where
  | keyboardInterrupt
  | error (msg : String)
  | nameError
  deriving DecidableEq

/-- The environment a run of `main` faces, as the outcome of each of its
three effectful stages: whether `initialize_camera()` (line 122) raises,
whether `YOLO("best.pt")` (line 125) raises, and whether the
capture-process-display loop (lines 129-142) raises (`none` meaning the
loop ends normally through the `break` on the `q` key).  A later stage's
outcome is only reached when the earlier ones are `none`. -/
structure Env where
  initExc : Option PyExc
  modelExc : Option PyExc
  loopExc : Option PyExc
  deriving DecidableEq

/-- The observable outcome of one run of `main`: which exit message was
printed by the handlers (lines 145 and 147), whether `picam2.stop()`
(line 150) and `cv2.destroyAllWindows()` (line 151) were executed, and the
exception, if any, that propagates out of `main`. -/
structure MainResult where
  printedExiting : Bool
  printedError : Bool
  stopped : Bool
  windowsDestroyed : Bool
  propagated : Option PyExc
  deriving DecidableEq

/-- The exception the `try` body of `main` (lines 120-142) terminates with,
sequencing the three stages: camera initialization, model loading, then the
loop. -/
def bodyOutcome (env : Env) : Option PyExc :=
  match env.initExc with
  | some e => some e
  | none =>
    match env.modelExc with
    | some e => some e
    | none => env.loopExc

/-- Shallow embedding of `main` (main2.py lines 119-151) with Python
try/except/finally semantics.  The two `except` clauses catch any body
exception and print their message (KeyboardInterrupt by the first clause,
everything else by the second).  The `finally` block then evaluates
`picam2.stop()`: the local `picam2` is bound if and only if
`initialize_camera()` returned (line 122), so when camera initialization
raised, the `finally` block itself raises a `NameError` that replaces the
already-handled exception and propagates out of `main`, and
`cv2.destroyAllWindows()` is never reached.  When `picam2` is bound, the
cleanup runs and nothing propagates. -/
def runMain (env : Env) : MainResult :=
  let printedExiting :=
    match bodyOutcome env with
    | some PyExc.keyboardInterrupt => true
    | _ => false
  let printedError :=
    match bodyOutcome env with
    | some PyExc.keyboardInterrupt => false
    | some _ => true
    | none => false
  match env.initExc with
  | none =>
    { printedExiting := printedExiting, printedError := printedError,
      stopped := true, windowsDestroyed := true, propagated := none }
  | some _ =>
    { printedExiting := printedExiting, printedError := printedError,
      stopped := false, windowsDestroyed := false,
      propagated := some PyExc.nameError }

/-- A frame whose two detections sit left of the image middle column:
topTether box x-range 0-100, logo box x-range 45-65. -/
def frameA : List Det := [⟨0, 0, 100, 10, "topTether"⟩, ⟨45, 0, 65, 10, "logo"⟩]

/-- A frame whose two detections sit right of the image middle column:
topTether box x-range 300-400, logo box x-range 345-365. -/
def frameB : List Det := [⟨300, 0, 400, 10, "topTether"⟩, ⟨345, 0, 365, 10, "logo"⟩]

/-- A frame like `frameB` whose topTether box spans 300-500 and logo box
405-415, giving the same 5% offset with different geometry. -/
def frameB2 : List Det := [⟨300, 0, 500, 10, "topTether"⟩, ⟨405, 0, 415, 10, "logo"⟩]

/-- `frameB` followed by one further detection of a third class, so the
last-iterated detection is neither the topTether nor the logo box. -/
def frameC : List Det :=
  [⟨300, 0, 400, 10, "topTether"⟩, ⟨345, 0, 365, 10, "logo"⟩,
   ⟨600, 0, 630, 10, "inverted_logo"⟩]

/-- A frame with a zero-width topTether box (x1 = x2 = 10) and a logo box. -/
def frameZW : List Det := [⟨10, 0, 10, 20, "topTether"⟩, ⟨30, 0, 50, 20, "logo"⟩]

/-- A frame in which only the topTether feature is detected. -/
def frameSolo : List Det := [⟨300, 0, 400, 10, "topTether"⟩]

/-- The measurement `process_frame` produces on a 640x480 frame with
detections `frameB`. -/
def mB : Measurement :=
  { t_mid_x := 350, l_mid_x := 355, width_t := 100, percentage := 5,
    h_status := "Normal Position", v_status := "Right", last_x2 := 365,
    last_cls := "logo", logo_status := "NORMAL LOGO" }

/-- The measurement `process_frame` produces on a 640x480 frame with
detections `frameB2`. -/
def mB2 : Measurement :=
  { t_mid_x := 400, l_mid_x := 410, width_t := 200, percentage := 5,
    h_status := "Normal Position", v_status := "Right", last_x2 := 415,
    last_cls := "logo", logo_status := "NORMAL LOGO" }

/-- The measurement `process_frame` produces on a 640x480 frame with
detections `frameC`. -/
def mC : Measurement :=
  { t_mid_x := 350, l_mid_x := 355, width_t := 100, percentage := 5,
    h_status := "Normal Position", v_status := "Right", last_x2 := 630,
    last_cls := "inverted_logo", logo_status := "DEFECTIVE LOGO" }

lemma frameB_meas : measOf (process_frame 640 480 frameB) = some (some mB) := by
  simp [measOf, process_frame, scanState, stepDet, initState, hStatus, logoDecision,
    frameB, mB] <;> norm_num

lemma frameB2_meas : measOf (process_frame 640 480 frameB2) = some (some mB2) := by
  simp [measOf, process_frame, scanState, stepDet, initState, hStatus, logoDecision,
    frameB2, mB2] <;> norm_num

lemma frameC_meas : measOf (process_frame 640 480 frameC) = some (some mC) := by
  simp [measOf, process_frame, scanState, stepDet, initState, hStatus, logoDecision,
    frameC, mC] <;> norm_num

/-- Claim C10: when the model returns multiple detections of the same class
(topTether or logo) in one frame, the coordinates stored for that class are
those of the last such detection in iteration order — the stored slot after
the loop is exactly the last detection of that class, earlier ones having
been overwritten. -/
theorem C10_last_detection_overwrites (w h : Int) (dets : List Det) :
    (scanState w h dets).t =
      (lastOfClass "topTether" dets).map (fun d => (d.x1, d.y1, d.x2, d.y2)) ∧
    (scanState w h dets).l =
      (lastOfClass "logo" dets).map (fun d => (d.x1, d.y1, d.x2, d.y2)) :=
  ⟨scanState_t w h dets, scanState_l w h dets⟩

/-- Claim C9: the division by the tether width is unguarded — on a frame in
which both classes are present and the topTether box has `t_x1 = t_x2`,
`process_frame` raises `ZeroDivisionError` instead of returning a frame. -/
theorem C9_zero_width_division_raises :
    (lastOfClass "topTether" frameZW).isSome = true ∧
    (lastOfClass "logo" frameZW).isSome = true ∧
    process_frame 640 480 frameZW = Except.error PFError.zeroDivision :=
  ⟨by decide, by decide, by
    simp [process_frame, scanState, stepDet, initState, frameZW]⟩

/-- Claim C6: whenever at least one of the two features is not detected,
`process_frame` computes no offset percentage and assigns no status (the
measurement is absent), and it still returns an annotated frame that
carries the middle reference line and a bounding box for every
detection. -/
theorem C6_missing_detection_no_measurement (w h : Int) (dets : List Det)
    (hmiss : lastOfClass "topTether" dets = none ∨ lastOfClass "logo" dets = none) :
    measOf (process_frame w h dets) = some none ∧
    Ann.line (Int.fdiv w 2, 0) (Int.fdiv w 2, h) ∈ annsOf (process_frame w h dets) ∧
    ∀ d ∈ dets, Ann.rect (d.x1, d.y1) (d.x2, d.y2) ∈ annsOf (process_frame w h dets) := by
  have hmiss2 : (scanState w h dets).t = none ∨ (scanState w h dets).l = none := by
    rcases hmiss with hx | hx
    · left
      rw [scanState_t, hx]
      rfl
    · right
      rw [scanState_l, hx]
      rfl
  rw [process_frame_noMeas w h dets hmiss2]
  refine ⟨rfl, line_mem_scanState w h dets, fun d hd => ?_⟩
  exact rect_mem_anns_foldl dets _ d hd

/-- Claim C6 witness: on a 640x480 frame whose only detection is a
topTether box, no measurement is produced and the middle line and the box
are drawn. -/
theorem C6_missing_detection_witness :
    measOf (process_frame 640 480 frameSolo) = some none ∧
    Ann.line (Int.fdiv 640 2, 0) (Int.fdiv 640 2, 480) ∈
      annsOf (process_frame 640 480 frameSolo) ∧
    ∀ d ∈ frameSolo, Ann.rect (d.x1, d.y1) (d.x2, d.y2) ∈
      annsOf (process_frame 640 480 frameSolo) :=
  C6_missing_detection_no_measurement 640 480 frameSolo (Or.inr (by decide))

/-- Claim C5: the horizontal status is determined by exactly the stated
comparisons on the offset percentage — "Left of Normal Position" iff
p < 1, "Right of Normal Position" iff p > 10, "Normal Position" iff
1 ≤ p ≤ 10 (so exactly one label applies) — and the `h_status` of every
measurement `process_frame` produces is this thresholding of its
percentage. -/
theorem C5_hstatus_thresholds :
    (∀ p : ℚ,
      (hStatus p = "Left of Normal Position" ↔ p < 1) ∧
      (hStatus p = "Right of Normal Position" ↔ p > 10) ∧
      (hStatus p = "Normal Position" ↔ 1 ≤ p ∧ p ≤ 10)) ∧
    ∀ (w h : Int) (dets : List Det) (m : Measurement),
      measOf (process_frame w h dets) = some (some m) →
      m.h_status = hStatus m.percentage := by
  constructor
  · intro p
    unfold hStatus
    split_ifs with h1 h2
    · exact ⟨⟨fun _ => h1, fun _ => rfl⟩,
        ⟨fun hx => absurd hx (by decide), fun hx => (by linarith : False).elim⟩,
        ⟨fun hx => absurd hx (by decide), fun hx => (by linarith [hx.1] : False).elim⟩⟩
    · exact ⟨⟨fun hx => absurd hx (by decide), fun hx => (by linarith : False).elim⟩,
        ⟨fun _ => h2, fun _ => rfl⟩,
        ⟨fun hx => absurd hx (by decide), fun hx => (by linarith [hx.2] : False).elim⟩⟩
    · exact ⟨⟨fun hx => absurd hx (by decide), fun hx => (h1 hx).elim⟩,
        ⟨fun hx => absurd hx (by decide), fun hx => (h2 hx).elim⟩,
        ⟨fun _ => ⟨by linarith, by linarith⟩, fun _ => rfl⟩⟩
  · intro w h dets m hm
    obtain ⟨tb, lb, _, _, _, _, _, _, _, _, _, hh, _, _⟩ :=
      process_frame_meas w h dets m hm
    exact hh

/-- Claim C5 witness: at percentage 5 the label is "Normal Position", and
the measurement on `frameB` carries the thresholded label of its own
percentage. -/
theorem C5_hstatus_thresholds_witness :
    (hStatus 5 = "Normal Position" ↔ 1 ≤ (5 : ℚ) ∧ (5 : ℚ) ≤ 10) ∧
    mB.h_status = hStatus mB.percentage :=
  ⟨(C5_hstatus_thresholds.1 5).2.2,
   C5_hstatus_thresholds.2 640 480 frameB mB frameB_meas⟩

/-- Claim C7 (counterexample to the literal labels): a produced
classification reads "NORMAL LOGO", which is neither of the two strings
"NORMAL" and "DEFECTIVE" the claim names. -/
theorem C7_counterexample :
    statusOf (process_frame 640 480 frameB) = some "NORMAL LOGO" ∧
    ¬("NORMAL LOGO" = "NORMAL" ∨ "NORMAL LOGO" = "DEFECTIVE") := by
  constructor
  · simp only [statusOf, frameB_meas]
    rfl
  · decide

/-- Claim C7 (amended): whenever a classification is produced, it is
exactly one of the two labels "NORMAL LOGO" and "DEFECTIVE LOGO" — no
third outcome exists. -/
theorem C7_two_outcomes (w h : Int) (dets : List Det) (m : Measurement)
    (hm : measOf (process_frame w h dets) = some (some m)) :
    m.logo_status = "NORMAL LOGO" ∨ m.logo_status = "DEFECTIVE LOGO" := by
  obtain ⟨tb, lb, _, _, _, _, _, _, _, _, _, _, _, hls⟩ :=
    process_frame_meas w h dets m hm
  rw [hls]
  unfold logoDecision
  split_ifs <;> simp

/-- Claim C7 witness: the classification on `frameB` is one of the two
labels. -/
theorem C7_two_outcomes_witness :
    mB.logo_status = "NORMAL LOGO" ∨ mB.logo_status = "DEFECTIVE LOGO" :=
  C7_two_outcomes 640 480 frameB mB frameB_meas

/-- Claim C8: the side status and the inverted-class check entering the
final NORMAL/DEFECTIVE decision are computed from the last detection
iterated in the frame, whatever its class: the measurement's `last_x2` and
`last_cls` are that detection's `x2` and class name, the side status
compares that `x2` to the image middle, and the classification is the
decision taken on that class name. -/
theorem C8_side_and_class_from_last_detection (w h : Int) (dets : List Det)
    (m : Measurement) (d : Det)
    (hm : measOf (process_frame w h dets) = some (some m))
    (hd : dets.getLast? = some d) :
    m.last_x2 = d.x2 ∧ m.last_cls = d.cls ∧
    m.v_status = (if d.x2 > Int.fdiv w 2 then "Right" else "Left") ∧
    m.logo_status = logoDecision m.h_status m.v_status d.cls := by
  obtain ⟨tb, lb, _, _, hx2, hcls, _, _, _, _, _, _, hvs, hls⟩ :=
    process_frame_meas w h dets m hm
  rw [scanState_lastX2, hd] at hx2
  rw [scanState_lastCls, hd] at hcls
  simp only [Option.map_some', Option.some.injEq] at hx2 hcls
  refine ⟨hx2.symm, hcls.symm, ?_, ?_⟩
  · rw [hvs, hx2]
  · rw [hls, hcls]

/-- Claim C8 witness: on `frameC` the last detection is an
"inverted_logo" box, and the side status and classification are taken from
it even though it is neither the topTether nor the logo box. -/
theorem C8_side_and_class_witness :
    mC.last_x2 = 630 ∧ mC.last_cls = "inverted_logo" ∧
    mC.v_status = (if (630 : Int) > Int.fdiv 640 2 then "Right" else "Left") ∧
    mC.logo_status = logoDecision mC.h_status mC.v_status "inverted_logo" :=
  C8_side_and_class_from_last_detection 640 480 frameC mC
    ⟨600, 0, 630, 10, "inverted_logo"⟩ frameC_meas (by decide)

/-- Claim C2: whenever both features are detected and the offset is
computed, the computed offset percentage equals the spec formula
`(logo_mid_x − tether_mid_x) / tether_width × 100` evaluated on the stored
boxes — integer midpoints `(x1 + x2) // 2` of the last topTether and last
logo detections, and `tether_width = t_x2 − t_x1`. -/
theorem C2_offset_percentage_formula (w h : Int) (dets : List Det)
    (m : Measurement) (dt dl : Det)
    (ht : lastOfClass "topTether" dets = some dt)
    (hl : lastOfClass "logo" dets = some dl)
    (hm : measOf (process_frame w h dets) = some (some m)) :
    m.percentage = offsetPercentageSpec dt.x1 dt.x2 dl.x1 dl.x2 := by
  obtain ⟨tb, lb, htb, hlb, _, _, hmt, hml, hwt, _, hpct, _, _, _⟩ :=
    process_frame_meas w h dets m hm
  rw [scanState_t, ht] at htb
  rw [scanState_l, hl] at hlb
  simp only [Option.map_some', Option.some.injEq] at htb hlb
  rw [hpct, hmt, hml, hwt, ← htb, ← hlb]
  rfl

/-- Claim C2 witness: on `frameB` the computed percentage equals the spec
formula on the two stored boxes. -/
theorem C2_offset_percentage_witness :
    mB.percentage = offsetPercentageSpec 300 400 345 365 :=
  C2_offset_percentage_formula 640 480 frameB mB
    ⟨300, 0, 400, 10, "topTether"⟩ ⟨345, 0, 365, 10, "logo"⟩
    (by decide) (by decide) frameB_meas

/-- Claim C1 (counterexample): the NORMAL/DEFECTIVE classification is not a
function of the offset percentage alone.  `frameA` and `frameB` both yield
offset percentage 5, yet `frameA` is classified "DEFECTIVE LOGO" (its last
detection's `x2 = 65` lies left of the middle column 320) while `frameB`
is classified "NORMAL LOGO" (last `x2 = 365` lies right of it). -/
theorem C1_counterexample :
    pctOf (process_frame 640 480 frameA) = some 5 ∧
    pctOf (process_frame 640 480 frameB) = some 5 ∧
    statusOf (process_frame 640 480 frameA) = some "DEFECTIVE LOGO" ∧
    statusOf (process_frame 640 480 frameB) = some "NORMAL LOGO" := by
  refine ⟨?_, ?_, ?_, ?_⟩
  · simp [pctOf, measOf, process_frame, scanState, stepDet, initState, hStatus,
      logoDecision, frameA]
  · simp only [pctOf, frameB_meas]
    rfl
  · simp [statusOf, measOf, process_frame, scanState, stepDet, initState, hStatus,
      logoDecision, frameA]
  · simp only [statusOf, frameB_meas]
    rfl

/-- Claim C1 (amended): for frames in which both features are detected, the
NORMAL/DEFECTIVE classification is a function of the offset percentage
together with the side status derived from the last-iterated detection's
`x2` and whether that detection's class name is one of the two inverted
classes — two measured frames agreeing on those three quantities receive
the same classification. -/
theorem C1_classification_dependence
    (w1 h1 : Int) (dets1 : List Det) (m1 : Measurement)
    (w2 h2 : Int) (dets2 : List Det) (m2 : Measurement)
    (hm1 : measOf (process_frame w1 h1 dets1) = some (some m1))
    (hm2 : measOf (process_frame w2 h2 dets2) = some (some m2))
    (hp : m1.percentage = m2.percentage)
    (hv : m1.v_status = m2.v_status)
    (hc : (m1.last_cls = "inverted_topTether" ∨ m1.last_cls = "inverted_logo") ↔
          (m2.last_cls = "inverted_topTether" ∨ m2.last_cls = "inverted_logo")) :
    m1.logo_status = m2.logo_status := by
  obtain ⟨tb1, lb1, _, _, _, _, _, _, _, _, _, hh1, _, hls1⟩ :=
    process_frame_meas w1 h1 dets1 m1 hm1
  obtain ⟨tb2, lb2, _, _, _, _, _, _, _, _, _, hh2, _, hls2⟩ :=
    process_frame_meas w2 h2 dets2 m2 hm2
  rw [hls1, hls2, hh1, hh2, hp, hv]
  exact logoDecision_congr _ _ _ _ hc

/-- Claim C1 witness: `frameB` and `frameB2` have different boxes but agree
on percentage (5), side status ("Right") and non-inverted last class, and
indeed receive the same classification. -/
theorem C1_classification_witness : mB.logo_status = mB2.logo_status :=
  C1_classification_dependence 640 480 frameB mB 640 480 frameB2 mB2
    frameB_meas frameB2_meas rfl rfl Iff.rfl

/-- Claim C3 (counterexample): when camera initialization itself raises,
the catch-all does print its error message, but the `finally` block then
raises a `NameError` (the local `picam2` was never bound) which propagates
out of `main` — contradicting that no exception or secondary exception
escapes. -/
theorem C3_counterexample :
    (runMain { initExc := some (PyExc.error "camera init failed"),
               modelExc := none, loopExc := none }).printedError = true ∧
    (runMain { initExc := some (PyExc.error "camera init failed"),
               modelExc := none, loopExc := none }).propagated =
      some PyExc.nameError :=
  ⟨rfl, rfl⟩

/-- Claim C3 (amended): for every exception (other than KeyboardInterrupt)
raised during model loading or during the capture-process-display loop —
that is, once camera initialization has succeeded and `picam2` is bound —
the single top-level catch-all catches it, prints its error message, and
nothing propagates out of `main`.  When camera initialization itself
raises, the handler still prints, but the `finally` block's
`picam2.stop()` raises a `NameError` that propagates (see the
counterexample). -/
theorem C3_catchall_after_init (env : Env) (msg : String)
    (hinit : env.initExc = none)
    (hexc : env.modelExc = some (PyExc.error msg) ∨
            (env.modelExc = none ∧ env.loopExc = some (PyExc.error msg))) :
    (runMain env).printedError = true ∧ (runMain env).propagated = none := by
  rcases env with ⟨i, mo, lo⟩
  simp only at hinit hexc
  subst hinit
  rcases hexc with hmo | ⟨hmo, hlo⟩ <;> subst hmo
  · exact ⟨rfl, rfl⟩
  · subst hlo
    exact ⟨rfl, rfl⟩

/-- Claim C3 witness: an exception during model loading is caught, printed
and not propagated. -/
theorem C3_catchall_witness :
    (runMain { initExc := none, modelExc := some (PyExc.error "no best.pt"),
               loopExc := none }).printedError = true ∧
    (runMain { initExc := none, modelExc := some (PyExc.error "no best.pt"),
               loopExc := none }).propagated = none :=
  C3_catchall_after_init _ "no best.pt" rfl (Or.inl rfl)

/-- Claim C4 (counterexample): on the termination path where camera
initialization raises, `picam2.stop()` is not executed and the display
windows are not destroyed — the `finally` block dies on the unbound
`picam2` before reaching either cleanup, contradicting that every
termination path closes the camera and destroys the windows. -/
theorem C4_counterexample :
    (runMain { initExc := some (PyExc.error "Picamera2 unavailable"),
               modelExc := none, loopExc := none }).stopped = false ∧
    (runMain { initExc := some (PyExc.error "Picamera2 unavailable"),
               modelExc := none, loopExc := none }).windowsDestroyed = false ∧
    (runMain { initExc := some (PyExc.error "Picamera2 unavailable"),
               modelExc := none, loopExc := none }).propagated =
      some PyExc.nameError :=
  ⟨rfl, rfl, rfl⟩

/-- Claim C4 (amended): on every termination path of `main` on which camera
initialization succeeded — normal exit via the q key, KeyboardInterrupt,
or any other exception in model loading or the loop — `picam2.stop()` is
executed and all display windows are destroyed before the program ends.
Only when camera initialization itself raises does the cleanup not run
(see the counterexample). -/
theorem C4_cleanup_after_init (env : Env) (hinit : env.initExc = none) :
    (runMain env).stopped = true ∧ (runMain env).windowsDestroyed = true := by
  rcases env with ⟨i, mo, lo⟩
  simp only at hinit
  subst hinit
  exact ⟨rfl, rfl⟩

/-- Claim C4 witness: on the normal q-key exit path the camera is stopped
and the windows destroyed. -/
theorem C4_cleanup_witness :
    (runMain { initExc := none, modelExc := none, loopExc := none }).stopped = true ∧
    (runMain { initExc := none, modelExc := none,
               loopExc := none }).windowsDestroyed = true :=
  C4_cleanup_after_init _ rfl
